import Mathlib

/-!
Verification of the configuration-resolution pipeline of the
`todo-nodejs-mongo-aca` sample (the `getConfig` startup code in
`src/api/src/config`).

The repository contains two concrete variants of the pipeline:

* `V1` — the variant in `src/src/api/src/config/index.ts`: it loads the
  local `.env` file outside production, then always populates the
  environment first from Azure Key Vault and then from Azure App
  Configuration, and finally extracts the typed configuration.
* `V2` — the variant that branches on `NODE_ENV == "production"`: in
  production it populates the environment from Azure App Configuration,
  resolving settings that are Key Vault references
  (`isKeyVaultReference` / `getSecretFromKeyVault`); otherwise it only
  loads the local `.env` file.

External collaborators (the JavaScript `JSON.parse` builtin, the string
`split` method, the `dotenv` library and the Azure SDK clients) are
modelled as executable Lean functions or as explicit data (lists of
enumerated settings / secrets, a secret-store oracle function), so that
every definition evaluates on concrete inputs.
-/

/-- The process-wide environment namespace (`process.env`): a mutable
string-keyed map of string values.  It is modelled as an association list
where the most recent write is consed to the front and shadows earlier
entries. -/
abbrev Env := List (String × String)

/-- `process.env[k]` as a read: the most recent value written for `k`. -/
def getEnv (env : Env) (k : String) : Option String :=
  List.lookup k env

/-- Reading an environment variable with the empty-string default, as in
`process.env.X || ""`. -/
def getEnvD (env : Env) (k : String) : String :=
  (getEnv env k).getD ""

/-- The write `process.env[k] = v`. -/
def setEnv (k v : String) (env : Env) : Env :=
  (k, v) :: env

/-- JavaScript values produced by `JSON.parse`. -/
inductive Json where
  | null : Json
  | bool (b : Bool) : Json
  | num (n : Int) : Json
  | str (s : String) : Json
  | arr (elems : List Json) : Json
  | obj (fields : List (String × Json)) : Json

/-- JavaScript truthiness of a parsed JSON value (`null`, `false`, `0` and
`""` are falsy). -/
def Json.truthy : Json → Bool
  | Json.null => false
  | Json.bool b => b
  | Json.num n => n != 0
  | Json.str s => s != ""
  | Json.arr _ => true
  | Json.obj _ => true

/-- JavaScript property access `o[name]` on a `JSON.parse` result; `none`
stands for `undefined`.  `JSON.parse` keeps the last occurrence of a
duplicated object key, hence the lookup on the reversed field list. -/
def Json.getProp (j : Json) (name : String) : Option Json :=
  match j with
  | Json.obj fields => List.lookup name fields.reverse
  | _ => none

/-- Skip JSON whitespace. -/
def skipWs : List Char → List Char
  | [] => []
  | c :: rest =>
    if c = ' ' ∨ c = '\t' ∨ c = '\n' ∨ c = '\r' then skipWs rest else c :: rest

/-- Translate a character appearing after a backslash in a JSON string
literal. -/
def escChar (c : Char) : Char :=
  if c = 'n' then '\n'
  else if c = 't' then '\t'
  else if c = 'r' then '\r'
  else if c = 'b' then '\x08'
  else if c = 'f' then '\x0c'
  else c

/-- Parse the remainder of a JSON string literal (the opening quote has
already been consumed). -/
def parseJString : List Char → String → Option (String × List Char)
  | [], _ => none
  | '"' :: rest, acc => some (acc, rest)
  | '\\' :: c :: rest, acc => parseJString rest (acc.push (escChar c))
  | c :: rest, acc => parseJString rest (acc.push c)

/-- Take a maximal run of decimal digits. -/
def takeDigits : List Char → List Char × List Char
  | [] => ([], [])
  | c :: rest =>
    if c.isDigit then
      match takeDigits rest with
      | (ds, r) => (c :: ds, r)
    else ([], c :: rest)

/-- Numeric value of a digit run. -/
def digitsToNat (ds : List Char) : Nat :=
  ds.foldl (fun n c => n * 10 + (c.toNat - 48)) 0

/-- Parse a JSON integer numeral (the integer fragment of the JSON number
grammar; this is the only numeral shape relevant to the pipeline). -/
def parseNumber : List Char → Option (Json × List Char)
  | '-' :: rest =>
    match takeDigits rest with
    | ([], _) => none
    | (ds, r) => some (Json.num (-(digitsToNat ds : Int)), r)
  | s =>
    match takeDigits s with
    | ([], _) => none
    | (ds, r) => some (Json.num (Int.ofNat (digitsToNat ds)), r)

/-- Match an expected literal tail such as `rue` of `true`. -/
def matchLit : List Char → List Char → Option (List Char)
  | [], s => some s
  | p :: ps, c :: rest => if c = p then matchLit ps rest else none
  | _ :: _, [] => none

/-- Work items of the JSON parser: a value to parse, or the remainder of an
object / array whose opening bracket has been consumed. -/
inductive ParseTask where
  | value : List Char → ParseTask
  | objectRest : List Char → List (String × Json) → ParseTask
  | arrayRest : List Char → List Json → ParseTask

/-- Fuel-indexed core of the model of the JavaScript `JSON.parse` builtin.
It covers objects, arrays, strings (with single-character escapes),
integer numerals, `true`, `false` and `null` — the value shapes the
configuration pipeline can meet. -/
def parseCore : Nat → ParseTask → Option (Json × List Char)
  | 0, _ => none
  | fuel + 1, ParseTask.value s =>
    match skipWs s with
    | '"' :: rest =>
      match parseJString rest "" with
      | some (lit, r) => some (Json.str lit, r)
      | none => none
    | '{' :: rest => parseCore fuel (ParseTask.objectRest rest [])
    | '[' :: rest => parseCore fuel (ParseTask.arrayRest rest [])
    | 't' :: rest =>
      match matchLit ['r', 'u', 'e'] rest with
      | some r => some (Json.bool true, r)
      | none => none
    | 'f' :: rest =>
      match matchLit ['a', 'l', 's', 'e'] rest with
      | some r => some (Json.bool false, r)
      | none => none
    | 'n' :: rest =>
      match matchLit ['u', 'l', 'l'] rest with
      | some r => some (Json.null, r)
      | none => none
    | other => parseNumber other
  | fuel + 1, ParseTask.objectRest s acc =>
    match skipWs s with
    | '}' :: rest => if acc.isEmpty then some (Json.obj [], rest) else none
    | '"' :: rest =>
      match parseJString rest "" with
      | none => none
      | some (key, r1) =>
        match skipWs r1 with
        | ':' :: r2 =>
          match parseCore fuel (ParseTask.value r2) with
          | none => none
          | some (v, r3) =>
            match skipWs r3 with
            | ',' :: r4 => parseCore fuel (ParseTask.objectRest r4 (acc ++ [(key, v)]))
            | '}' :: r4 => some (Json.obj (acc ++ [(key, v)]), r4)
            | _ => none
        | _ => none
    | _ => none
  | fuel + 1, ParseTask.arrayRest s acc =>
    match skipWs s with
    | ']' :: rest => if acc.isEmpty then some (Json.arr [], rest) else none
    | s2 =>
      match parseCore fuel (ParseTask.value s2) with
      | none => none
      | some (v, r1) =>
        match skipWs r1 with
        | ',' :: r2 => parseCore fuel (ParseTask.arrayRest r2 (acc ++ [v]))
        | ']' :: r2 => some (Json.arr (acc ++ [v]), r2)
        | _ => none

/-- Model of `JSON.parse(s)`: `some` on success, `none` when the builtin
throws a `SyntaxError`. -/
def jsonParse (s : String) : Option Json :=
  match parseCore (2 * s.length + 2) (ParseTask.value s.data) with
  | some (j, rest) => if skipWs rest = [] then some j else none
  | none => none

/-- Model of the JavaScript `s.split(sep)` call for a single-character
separator: auxiliary accumulator form. -/
def splitOnCharAux (sep : Char) : List Char → String → List String
  | [], acc => [acc]
  | c :: rest, acc =>
    if c = sep then acc :: splitOnCharAux sep rest "" else splitOnCharAux sep rest (acc.push c)

/-- Model of the JavaScript `s.split(sep)` call for a single-character
separator. -/
def splitOnChar (sep : Char) (s : String) : List String :=
  splitOnCharAux sep s.data ""

/-- JavaScript indexing `parts[i]` followed by template interpolation: an
out-of-range access yields `undefined`, which interpolates as the literal
text `undefined`. -/
def jsIndex (xs : List String) (i : Nat) : String :=
  xs.getD i "undefined"

/-- Errors surfaced by the remote stores and by the reference-resolution
code: `auth` models an authentication/authorization failure thrown by an
SDK call, `jsonSyntaxError` an uncaught `JSON.parse` throw,
`jsTypeError` an uncaught JavaScript `TypeError`, and the two `Error`
objects constructed explicitly by `getSecretFromKeyVault`. -/
inductive StoreError where
  | auth (message : String) : StoreError
  | settingHasNoValue (key : String) : StoreError
  | invalidKeyVaultReference (key : String) : StoreError
  | jsonSyntaxError (key : String) : StoreError
  | jsTypeError (key : String) : StoreError
deriving DecidableEq

/-- Model of the Key Vault SDK single-secret retrieval: given the vault
endpoint URL and a secret name, `getSecret` either returns the secret's
current value or throws. -/
abbrev SecretStore := String → String → Except StoreError String

/-- An entry enumerated from Azure App Configuration; `value` is the
setting's value, with `""` standing for an empty or absent value. -/
structure ConfigurationSetting where
  key : String
  value : String
deriving DecidableEq

/-- `isKeyVaultReference` (variant `V2`): a setting is a Key Vault
reference iff its value is non-empty, parses as JSON, the parsed value is
truthy and its `uri` property is a string; a `JSON.parse` throw is caught
and yields `false`. -/
def isKeyVaultReference (setting : ConfigurationSetting) : Bool :=
  if setting.value = "" then false
  else
    match jsonParse setting.value with
    | none => false
    | some v =>
      v.truthy &&
        (match v.getProp "uri" with
         | some (Json.str _) => true
         | _ => false)

/-- `getSecretFromKeyVault` (variant `V2`): re-parse the setting value,
extract its `uri` property, reject an unusable URI, then split the URI on
`/` — the vault host is segment 2 and the secret name segment 4 — and
fetch the secret from `https://` followed by the vault host. -/
def getSecretFromKeyVault (secretStore : SecretStore) (setting : ConfigurationSetting) :
    Except StoreError String :=
  if setting.value = "" then
    Except.error (StoreError.settingHasNoValue setting.key)
  else
    match jsonParse setting.value with
    | none => Except.error (StoreError.jsonSyntaxError setting.key)
    | some Json.null => Except.error (StoreError.jsTypeError setting.key)
    | some parsed =>
      match parsed.getProp "uri" with
      | some (Json.str secretUri) =>
        if secretUri = "" then
          Except.error (StoreError.invalidKeyVaultReference setting.key)
        else
          secretStore ("https://" ++ jsIndex (splitOnChar '/' secretUri) 2)
            (jsIndex (splitOnChar '/' secretUri) 4)
      | some other =>
        if other.truthy then Except.error (StoreError.jsTypeError setting.key)
        else Except.error (StoreError.invalidKeyVaultReference setting.key)
      | none => Except.error (StoreError.invalidKeyVaultReference setting.key)

/-- Model of the external `dotenv.config()` call: merge the entries of the
local `.env` file into the environment without overwriting keys that are
already set (the library's documented behaviour). -/
def dotenvConfig (entries : List (String × String)) (env : Env) : Env :=
  entries.foldl (fun e p => if getEnv e p.1 = none then setEnv p.1 p.2 e else e) env

structure DatabaseConfig where
  connectionString : String
  databaseName : String
deriving DecidableEq

structure ObservabilityConfig where
  connectionString : String
  roleName : String
deriving DecidableEq

/-- The `AppConfig` structure returned by `getConfig`. -/
structure AppConfig where
  observability : ObservabilityConfig
  database : DatabaseConfig
deriving DecidableEq

/-- Modelled from the spec: the typed schema accessor (the external
`config` package bound to declarative schema files that are not part of
the analysed sources).  The spec binds `database.connectionString` to the
environment variable `AZURE_COSMOS_CONNECTION_STRING` and
`observability.connectionString` to
`APPLICATIONINSIGHTS_CONNECTION_STRING`, reading the empty string when a
variable is unset; it does not name the variables behind `databaseName`
and `roleName`, so those bindings are abstract key parameters. -/
def configGet (dbNameKey roleNameKey : String) (env : Env) :
    DatabaseConfig × ObservabilityConfig :=
  ({ connectionString := getEnvD env "AZURE_COSMOS_CONNECTION_STRING"
     databaseName := getEnvD env dbNameKey },
   { connectionString := getEnvD env "APPLICATIONINSIGHTS_CONNECTION_STRING"
     roleName := getEnvD env roleNameKey })

/-- The warning logged by `getConfig` when `database.connectionString` is
empty. -/
def databaseWarning : String :=
  "database.connectionString is required but has not been set. Ensure environment variable AZURE_COSMOS_CONNECTION_STRING has been set"

/-- The warning logged by `getConfig` when
`observability.connectionString` is empty. -/
def observabilityWarning : String :=
  "observability.connectionString is required but has not been set. Ensure environment variable APPLICATIONINSIGHTS_CONNECTION_STRING has been set"

/-- The tail of `getConfig` shared by both variants: read the typed
configuration from the populated environment, log a warning for each
empty connection string, and return the `AppConfig` structure together
with the warnings emitted. -/
def extractConfig (dbNameKey roleNameKey : String) (env : Env) :
    AppConfig × List String :=
  let databaseConfig := (configGet dbNameKey roleNameKey env).1
  let observabilityConfig := (configGet dbNameKey roleNameKey env).2
  let warnings :=
    (if databaseConfig.connectionString = "" then [databaseWarning] else []) ++
      (if observabilityConfig.connectionString = "" then [observabilityWarning] else [])
  ({ observability :=
      { connectionString := observabilityConfig.connectionString
        roleName := observabilityConfig.roleName }
     database :=
      { connectionString := databaseConfig.connectionString
        databaseName := databaseConfig.databaseName } },
   warnings)

/-- `v` is a prefix of `w` (character lists). -/
def startsWithList : List Char → List Char → Bool
  | _, [] => true
  | [], _ :: _ => false
  | c :: cs, p :: ps => c = p && startsWithList cs ps

/-- `v` occurs in `w` as a contiguous sublist. -/
def containsSubList : List Char → List Char → Bool
  | [], v => v.isEmpty
  | c :: rest, v => startsWithList (c :: rest) v || containsSubList rest v

/-- `w` mentions `v`: `v` occurs in `w` as a substring. -/
def mentionsVar (w v : String) : Bool :=
  containsSubList w.data v.data

namespace V1

/-- Model of the name normalization applied to each vault secret: the
source performs a global regex replacement of `-` by `_` on
`secret.name`, which for a single-character pattern is exactly a
character map. -/
def kvKeyName (name : String) : String :=
  String.mk (name.data.map (fun c => if c = '-' then '_' else c))

/-- The `for await` loop of `populateEnvironmentFromKeyVault` in
`src/src/api/src/config/index.ts`.  The enumeration-plus-retrieval of the
vault is modelled as a list of `(name, outcome)` pairs, where an
`Except.error` outcome stands for an SDK throw (authentication /
authorization failure) at that point of the iteration.  Each retrieved
secret is written to the environment under its normalized name
(`kvKeyName`). -/
def keyVaultLoop : List (String × Except StoreError String) → Env → Env × Option StoreError
  | [], env => (env, none)
  | (_, Except.error e) :: _, env => (env, some e)
  | (name, Except.ok value) :: rest, env =>
    keyVaultLoop rest (setEnv (kvKeyName name) value env)

/-- `populateEnvironmentFromKeyVault`: a no-op (with a warning) when
`AZURE_KEY_VAULT_ENDPOINT` is unset or empty, otherwise the overlay loop;
a throw inside the `try` is logged and re-thrown (the `some` error
component). -/
def populateEnvironmentFromKeyVault (secrets : List (String × Except StoreError String))
    (env : Env) : Env × Option StoreError :=
  if getEnvD env "AZURE_KEY_VAULT_ENDPOINT" = "" then (env, none)
  else keyVaultLoop secrets env

/-- The `for await` loop of `populateEnvironmentFromAppConfig` in
`src/src/api/src/config/index.ts`: every enumerated setting is written to
the environment verbatim.  An `Except.error` element stands for an SDK
throw during the paginated enumeration. -/
def appConfigLoop : List (Except StoreError (String × String)) → Env → Env × Option StoreError
  | [], env => (env, none)
  | Except.error e :: _, env => (env, some e)
  | Except.ok (k, v) :: rest, env => appConfigLoop rest (setEnv k v env)

/-- `populateEnvironmentFromAppConfig` of variant `V1`: a no-op (with a
warning) when `AZURE_APPCONFIGURATION_ENDPOINT` is unset or empty,
otherwise the overlay loop; a throw is logged and re-thrown. -/
def populateEnvironmentFromAppConfig (settings : List (Except StoreError (String × String)))
    (env : Env) : Env × Option StoreError :=
  if getEnvD env "AZURE_APPCONFIGURATION_ENDPOINT" = "" then (env, none)
  else appConfigLoop settings env

/-- `getConfig` of `src/src/api/src/config/index.ts`: load `.env` when
`NODE_ENV !== "production"`, then populate from Key Vault, then from App
Configuration, then extract the typed configuration.  An uncaught throw
in either population step propagates as `Except.error` and the
extraction step is never reached. -/
def getConfig (secrets : List (String × Except StoreError String))
    (settings : List (Except StoreError (String × String)))
    (dotenvEntries : List (String × String)) (dbNameKey roleNameKey : String)
    (env : Env) : Except StoreError (Env × AppConfig × List String) :=
  let env1 := if getEnv env "NODE_ENV" = some "production" then env
              else dotenvConfig dotenvEntries env
  match populateEnvironmentFromKeyVault secrets env1 with
  | (_, some e) => Except.error e
  | (env2, none) =>
    match populateEnvironmentFromAppConfig settings env2 with
    | (_, some e) => Except.error e
    | (env3, none) => Except.ok (env3, extractConfig dbNameKey roleNameKey env3)

end V1

namespace V2

/-- The body of the `for await` loop of `populateEnvironmentFromAppConfig`
in the Key-Vault-reference variant: a setting with a non-empty value that
is a Key Vault reference resolves to the referenced secret's value, a
setting with a non-empty non-reference value resolves to its literal
value, and a setting with an empty value is skipped (`none`). -/
def resolveSetting (secretStore : SecretStore) (setting : ConfigurationSetting) :
    Except StoreError (Option String) :=
  if setting.value = "" then Except.ok none
  else if isKeyVaultReference setting then
    (getSecretFromKeyVault secretStore setting).map some
  else Except.ok (some setting.value)

/-- The `for await` loop of `populateEnvironmentFromAppConfig` in the
Key-Vault-reference variant: resolve each setting in enumeration order,
writing resolved values into the environment; a throw (auth failure,
invalid reference, ...) aborts the loop and propagates. -/
def populateLoop (secretStore : SecretStore) :
    List ConfigurationSetting → Env → Env × Option StoreError
  | [], env => (env, none)
  | setting :: rest, env =>
    match resolveSetting secretStore setting with
    | Except.error e => (env, some e)
    | Except.ok none => populateLoop secretStore rest env
    | Except.ok (some v) => populateLoop secretStore rest (setEnv setting.key v env)

/-- `populateEnvironmentFromAppConfig` of the Key-Vault-reference
variant: a no-op (with a warning) when `AZURE_APPCONFIGURATION_ENDPOINT`
is unset or empty, otherwise the resolution loop. -/
def populateEnvironmentFromAppConfig (secretStore : SecretStore)
    (settings : List ConfigurationSetting) (env : Env) : Env × Option StoreError :=
  if getEnvD env "AZURE_APPCONFIGURATION_ENDPOINT" = "" then (env, none)
  else populateLoop secretStore settings env

/-- `getConfig` of the Key-Vault-reference variant: when
`NODE_ENV == "production"` populate the environment from App
Configuration (resolving Key Vault references), otherwise load the local
`.env` file; then extract the typed configuration.  A population throw
propagates and extraction is never reached. -/
def getConfig (secretStore : SecretStore) (settings : List ConfigurationSetting)
    (dotenvEntries : List (String × String)) (dbNameKey roleNameKey : String)
    (env : Env) : Except StoreError (Env × AppConfig × List String) :=
  if getEnv env "NODE_ENV" = some "production" then
    match populateEnvironmentFromAppConfig secretStore settings env with
    | (_, some e) => Except.error e
    | (env2, none) => Except.ok (env2, extractConfig dbNameKey roleNameKey env2)
  else
    let env2 := dotenvConfig dotenvEntries env
    Except.ok (env2, extractConfig dbNameKey roleNameKey env2)

end V2

/-! ### Helper lemmas -/

theorem getEnv_setEnv_self (k v : String) (env : Env) :
    getEnv (setEnv k v env) k = some v := by
  simp [getEnv, setEnv, List.lookup]

theorem getEnv_append (xs env : Env) (k : String) :
    getEnv (xs ++ env) k = (List.lookup k xs).or (getEnv env k) := by
  induction xs with
  | nil => simp [getEnv]
  | cons p rest ih =>
    by_cases h : k = p.1
    · simp [getEnv, List.lookup, h]
    · simpa [getEnv, List.lookup, beq_false_of_ne h] using ih

theorem jsonParse_empty : jsonParse "" = none := rfl

theorem jsonParse_uri_object :
    jsonParse "\x7b\"uri\":\"abc\"\x7d" = some (Json.obj [("uri", Json.str "abc")]) := rfl

theorem jsonParse_malformed : jsonParse "not json" = none := rfl

theorem jsonParse_nonstring_uri :
    jsonParse "\x7b\"uri\":123\x7d" = some (Json.obj [("uri", Json.num 123)]) := rfl

theorem splitOnChar_example :
    splitOnChar '/' "https://myvault.vault.azure.net/secrets/mysecret" =
      ["https:", "", "myvault.vault.azure.net", "secrets", "mysecret"] := rfl

theorem splitOnChar_empty : splitOnChar '/' "" = [""] := rfl

theorem appConfigLoop_map_ok (settings : List (String × String)) (env : Env) :
    V1.appConfigLoop (settings.map Except.ok) env = (settings.reverse ++ env, none) := by
  induction settings generalizing env with
  | nil => rfl
  | cons p rest ih =>
    simp [V1.appConfigLoop, setEnv, ih]

theorem keyVaultLoop_map_ok (secrets : List (String × String)) (env : Env) :
    V1.keyVaultLoop (secrets.map (fun p => (p.1, Except.ok p.2))) env =
      ((secrets.map (fun p => (V1.kvKeyName p.1, p.2))).reverse ++ env, none) := by
  induction secrets generalizing env with
  | nil => rfl
  | cons p rest ih =>
    simp [V1.keyVaultLoop, setEnv, ih, V1.kvKeyName]

theorem populateLoop_append (secretStore : SecretStore)
    (xs ys : List ConfigurationSetting) (env : Env) :
    V2.populateLoop secretStore (xs ++ ys) env =
      match V2.populateLoop secretStore xs env with
      | (e, none) => V2.populateLoop secretStore ys e
      | (e, some err) => (e, some err) := by
  induction xs generalizing env with
  | nil => simp [V2.populateLoop]
  | cons s rest ih =>
    simp only [List.cons_append, V2.populateLoop]
    cases h : V2.resolveSetting secretStore s with
    | error e => simp
    | ok v => cases v <;> simp [ih]

/-! ### Claims -/

/-- C1, counterexample: in the Key-Vault-reference variant, a setting
whose store value is the empty string is skipped by the population loop,
so after population completes without error the namespace still holds the
pre-existing value `old` for that key instead of the store's empty
value. -/
theorem claim_C1_counterexample :
    (V2.populateEnvironmentFromAppConfig (fun _ _ => Except.error (StoreError.auth "denied"))
        [⟨"K", ""⟩]
        [("AZURE_APPCONFIGURATION_ENDPOINT", "https://cfg.example"), ("K", "old")]).2 = none
    ∧ getEnv (V2.populateEnvironmentFromAppConfig
        (fun _ _ => Except.error (StoreError.auth "denied"))
        [⟨"K", ""⟩]
        [("AZURE_APPCONFIGURATION_ENDPOINT", "https://cfg.example"), ("K", "old")]).1 "K"
      ≠ some "" := by
  exact ⟨rfl, by decide⟩

/-- C1, amended: after config-store population the namespace maps every
populated key to the store's value, overwriting any earlier value.  In
the plain variant (`V1`) this holds for every enumerated `(key, value)`
pair — the last pair for a key wins — including pairs whose value is the
empty string; in the Key-Vault-reference variant (`V2`) it holds for
every non-reference setting whose value is non-empty, while settings
with an empty value are skipped and leave any pre-existing value in
place. -/
theorem claim_C1_config_store_overwrites :
    (∀ (settings : List (String × String)) (env : Env) (k v : String),
        getEnvD env "AZURE_APPCONFIGURATION_ENDPOINT" ≠ "" →
        List.lookup k settings.reverse = some v →
        getEnv (V1.populateEnvironmentFromAppConfig (settings.map Except.ok) env).1 k = some v)
    ∧
    (∀ (secretStore : SecretStore) (pre : List ConfigurationSetting)
        (s : ConfigurationSetting) (env env2 : Env),
        V2.populateLoop secretStore pre env = (env2, none) →
        s.value ≠ "" → isKeyVaultReference s = false →
        getEnv (V2.populateLoop secretStore (pre ++ [s]) env).1 s.key = some s.value) := by
  constructor
  · intro settings env k v hep hlast
    simp [V1.populateEnvironmentFromAppConfig, hep, appConfigLoop_map_ok, getEnv_append, hlast]
  · intro secretStore pre s env env2 hpre hv href
    rw [populateLoop_append secretStore pre [s] env, hpre]
    simp [V2.populateLoop, V2.resolveSetting, hv, href, getEnv_setEnv_self]

/-- C1, witness for the amended claim: with the endpoint configured, the
plain variant writes the pairs `(K, v1)` then `(K, "")`, and the
resulting namespace maps `K` to the store's empty value. -/
theorem claim_C1_witness :
    getEnv (V1.populateEnvironmentFromAppConfig
        [Except.ok ("K", "v1"), Except.ok ("K", "")]
        [("AZURE_APPCONFIGURATION_ENDPOINT", "https://cfg.example")]).1 "K" = some "" :=
  claim_C1_config_store_overwrites.1 [("K", "v1"), ("K", "")]
    [("AZURE_APPCONFIGURATION_ENDPOINT", "https://cfg.example")] "K" "" (by decide) rfl

/-- C2: a config-store setting whose value is a JSON object with a string
`uri` field resolves to the current value of the referenced secret — the
vault host being segment 2 and the secret name segment 4 of the URI when
split on `/`, and the vault endpoint being `https://` followed by the
vault host — not to the literal JSON string. -/
theorem claim_C2_secret_reference_resolution
    (secretStore : SecretStore) (s : ConfigurationSetting)
    (u host name v : String)
    (hparse : jsonParse s.value = some (Json.obj [("uri", Json.str u)]))
    (hsplit : splitOnChar '/' u = ["https:", "", host, "secrets", name])
    (hstore : secretStore ("https://" ++ host) name = Except.ok v) :
    V2.resolveSetting secretStore s = Except.ok (some v) := by
  have hne : s.value ≠ "" := by
    intro h
    rw [h, jsonParse_empty] at hparse
    exact Option.noConfusion hparse
  have huri : (Json.obj [("uri", Json.str u)]).getProp "uri" = some (Json.str u) := by
    simp [Json.getProp, List.lookup]
  have hu : u ≠ "" := by
    intro h
    rw [h] at hsplit
    simp [splitOnChar, splitOnCharAux] at hsplit
  have href : isKeyVaultReference s = true := by
    simp [isKeyVaultReference, hne, hparse, Json.truthy, huri]
  have hget : getSecretFromKeyVault secretStore s = Except.ok v := by
    simp [getSecretFromKeyVault, hne, hparse, huri, hu, hsplit, jsIndex, hstore]
  simp [V2.resolveSetting, hne, href, hget, Except.map]

/-- C2, witness: the setting value
`{"uri":"https://myvault.vault.azure.net/secrets/mysecret"}` (braces
elided in this description) resolves to the current value of the secret
`mysecret` held by the vault at `https://myvault.vault.azure.net`. -/
theorem claim_C2_witness :
    V2.resolveSetting
      (fun endpointUrl secretName =>
        if endpointUrl = "https://myvault.vault.azure.net" ∧ secretName = "mysecret" then
          Except.ok "current-secret-value"
        else Except.error (StoreError.auth "denied"))
      ⟨"DB", "\x7b\"uri\":\"https://myvault.vault.azure.net/secrets/mysecret\"\x7d"⟩
      = Except.ok (some "current-secret-value") :=
  claim_C2_secret_reference_resolution _ _
    "https://myvault.vault.azure.net/secrets/mysecret" "myvault.vault.azure.net" "mysecret"
    "current-secret-value" rfl rfl rfl

/-- C3, counterexample: in the combined variant (`V1`), with
`NODE_ENV = development`, a configured Key Vault endpoint and a vault
whose enumeration fails with an authentication error, `getConfig`
consults the remote secret store and propagates its failure — so remote
sources are invoked outside production-like mode.  With an empty vault
the same call succeeds, showing the outcome depends on the remote
source. -/
theorem claim_C3_counterexample :
    V1.getConfig [("SECRET", Except.error (StoreError.auth "denied"))] [] []
        "AZURE_COSMOS_DATABASE_NAME" "ROLE_NAME"
        [("NODE_ENV", "development"), ("AZURE_KEY_VAULT_ENDPOINT", "https://kv.example")]
      = Except.error (StoreError.auth "denied")
    ∧ V1.getConfig [] [] [] "AZURE_COSMOS_DATABASE_NAME" "ROLE_NAME"
        [("NODE_ENV", "development"), ("AZURE_KEY_VAULT_ENDPOINT", "https://kv.example")]
      = Except.ok
          ([("NODE_ENV", "development"), ("AZURE_KEY_VAULT_ENDPOINT", "https://kv.example")],
            extractConfig "AZURE_COSMOS_DATABASE_NAME" "ROLE_NAME"
              [("NODE_ENV", "development"), ("AZURE_KEY_VAULT_ENDPOINT", "https://kv.example")]) := by
  exact ⟨rfl, rfl⟩

/-- C3, amended: in the branching variant (`V2`) the runtime-mode flag
selects exactly one population path — outside production the result is
independent of the remote store and its settings, and in production it
is independent of the local `.env` entries.  In the combined variant
(`V1`) the flag gates only the local loader: outside production the
pipeline is the same as running the remote population (and extraction)
on the locally-loaded environment, so remote sources are still
consulted. -/
theorem claim_C3_mode_selects_path :
    (∀ (store1 store2 : SecretStore) (settings1 settings2 : List ConfigurationSetting)
        (d : List (String × String)) (dbk rk : String) (env : Env),
        getEnv env "NODE_ENV" ≠ some "production" →
        V2.getConfig store1 settings1 d dbk rk env = V2.getConfig store2 settings2 d dbk rk env)
    ∧
    (∀ (store : SecretStore) (settings : List ConfigurationSetting)
        (d1 d2 : List (String × String)) (dbk rk : String) (env : Env),
        getEnv env "NODE_ENV" = some "production" →
        V2.getConfig store settings d1 dbk rk env = V2.getConfig store settings d2 dbk rk env)
    ∧
    (∀ (secrets : List (String × Except StoreError String))
        (settings : List (Except StoreError (String × String)))
        (d : List (String × String)) (dbk rk : String) (env : Env),
        getEnv env "NODE_ENV" ≠ some "production" →
        V1.getConfig secrets settings d dbk rk env =
          V1.getConfig secrets settings [] dbk rk (dotenvConfig d env)) := by
  refine ⟨?_, ?_, ?_⟩
  · intro store1 store2 settings1 settings2 d dbk rk env h
    simp [V2.getConfig, h]
  · intro store settings d1 d2 dbk rk env h
    simp [V2.getConfig, h]
  · intro secrets settings d dbk rk env h
    have hid : dotenvConfig [] (dotenvConfig d env) = dotenvConfig d env := rfl
    simp only [V1.getConfig, h, if_false, hid]
    by_cases h2 : getEnv (dotenvConfig d env) "NODE_ENV" = some "production" <;> simp [h2, hid]

/-- C3, witness: outside production the branching variant gives the same
result for two different remote stores and setting lists. -/
theorem claim_C3_witness :
    V2.getConfig (fun _ _ => Except.error (StoreError.auth "denied")) [⟨"K", "v"⟩]
        [("X", "1")] "AZURE_COSMOS_DATABASE_NAME" "ROLE_NAME" [("NODE_ENV", "development")]
      = V2.getConfig (fun _ _ => Except.ok "s") []
        [("X", "1")] "AZURE_COSMOS_DATABASE_NAME" "ROLE_NAME" [("NODE_ENV", "development")] :=
  claim_C3_mode_selects_path.1 _ _ _ _ _ _ _ _ (by decide)

/-- C4: when the secret-store endpoint is configured and the Key Vault
population step throws (e.g. an authentication or authorization failure
during listing or retrieval), `getConfig` of `V1` propagates that error
as a fatal one and never reaches the typed extraction step — no
`AppConfig` value is produced. -/
theorem claim_C4_auth_failure_aborts
    (secrets : List (String × Except StoreError String))
    (settings : List (Except StoreError (String × String)))
    (d : List (String × String)) (dbk rk : String) (env env2 : Env) (e : StoreError)
    (hfail : V1.populateEnvironmentFromKeyVault secrets
        (if getEnv env "NODE_ENV" = some "production" then env else dotenvConfig d env)
      = (env2, some e)) :
    V1.getConfig secrets settings d dbk rk env = Except.error e
    ∧ ∀ out, V1.getConfig secrets settings d dbk rk env ≠ Except.ok out := by
  have h1 : V1.getConfig secrets settings d dbk rk env = Except.error e := by
    simp only [V1.getConfig]
    rw [hfail]
  refine ⟨h1, ?_⟩
  intro out hout
  rw [h1] at hout
  exact Except.noConfusion hout

/-- C4, witness: with `NODE_ENV = production`, a configured vault
endpoint and a vault whose first retrieval throws an authentication
error, `getConfig` returns exactly that error. -/
theorem claim_C4_witness :
    V1.getConfig [("SECRET", Except.error (StoreError.auth "permission"))] [] []
        "AZURE_COSMOS_DATABASE_NAME" "ROLE_NAME"
        [("NODE_ENV", "production"), ("AZURE_KEY_VAULT_ENDPOINT", "https://kv.example")]
      = Except.error (StoreError.auth "permission") :=
  (claim_C4_auth_failure_aborts
    [("SECRET", Except.error (StoreError.auth "permission"))] [] []
    "AZURE_COSMOS_DATABASE_NAME" "ROLE_NAME"
    [("NODE_ENV", "production"), ("AZURE_KEY_VAULT_ENDPOINT", "https://kv.example")]
    [("NODE_ENV", "production"), ("AZURE_KEY_VAULT_ENDPOINT", "https://kv.example")]
    (StoreError.auth "permission") rfl).1

/-- C5: in the variant populating from both stores (`V1`), the Key Vault
population runs first and the App Configuration population second, so
for a key produced by both sources the config-store value — the last
config-store pair for that key — is the one left in the namespace,
whatever the vault holds for it. -/
theorem claim_C5_secret_store_first
    (secrets : List (String × String)) (settings : List (String × String))
    (env : Env) (k v : String)
    (_hboth : k ∈ secrets.map (fun p => V1.kvKeyName p.1))
    (hep : getEnvD (V1.populateEnvironmentFromKeyVault
        (secrets.map (fun p => (p.1, Except.ok p.2))) env).1
        "AZURE_APPCONFIGURATION_ENDPOINT" ≠ "")
    (hlast : List.lookup k settings.reverse = some v) :
    getEnv (V1.populateEnvironmentFromAppConfig (settings.map Except.ok)
        (V1.populateEnvironmentFromKeyVault
          (secrets.map (fun p => (p.1, Except.ok p.2))) env).1).1 k = some v := by
  simp [V1.populateEnvironmentFromAppConfig, hep, appConfigLoop_map_ok, getEnv_append, hlast]

/-- C5, witness: the vault populates `A_B` (from secret `A-B`) with
`fromVault`; the config store then populates `A_B` with `fromConfig`,
which is the value left in the namespace. -/
theorem claim_C5_witness :
    getEnv (V1.populateEnvironmentFromAppConfig [Except.ok ("A_B", "fromConfig")]
        (V1.populateEnvironmentFromKeyVault [("A-B", Except.ok "fromVault")]
          [("AZURE_KEY_VAULT_ENDPOINT", "https://kv.example"),
           ("AZURE_APPCONFIGURATION_ENDPOINT", "https://cfg.example")]).1).1 "A_B"
      = some "fromConfig" :=
  claim_C5_secret_store_first [("A-B", "fromVault")] [("A_B", "fromConfig")]
    [("AZURE_KEY_VAULT_ENDPOINT", "https://kv.example"),
     ("AZURE_APPCONFIGURATION_ENDPOINT", "https://cfg.example")]
    "A_B" "fromConfig" (by decide) (by decide) rfl

/-- C6: every vault secret populates the environment key obtained from
its name by replacing every `-` with `_` (the loop is characterized in
full); `My-Secret-Name` maps to `My_Secret_Name`; the names `A-B` and
`A_B` collide on the same key, the last-enumerated secret's value wins
deterministically in either enumeration order, and no error is raised on
the collision. -/
theorem claim_C6_name_normalization :
    (∀ (secrets : List (String × String)) (env : Env),
        V1.keyVaultLoop (secrets.map (fun p => (p.1, Except.ok p.2))) env =
          ((secrets.map (fun p => (V1.kvKeyName p.1, p.2))).reverse ++ env, none))
    ∧ V1.kvKeyName "My-Secret-Name" = "My_Secret_Name"
    ∧ V1.kvKeyName "A-B" = V1.kvKeyName "A_B"
    ∧ (∀ (env : Env) (v1 v2 : String),
        getEnv (V1.keyVaultLoop [("A-B", Except.ok v1), ("A_B", Except.ok v2)] env).1 "A_B"
          = some v2)
    ∧ (∀ (env : Env) (v1 v2 : String),
        getEnv (V1.keyVaultLoop [("A_B", Except.ok v2), ("A-B", Except.ok v1)] env).1 "A_B"
          = some v1)
    ∧ (∀ (env : Env) (v1 v2 : String),
        (V1.keyVaultLoop [("A-B", Except.ok v1), ("A_B", Except.ok v2)] env).2 = none) := by
  have hab : V1.kvKeyName "A-B" = "A_B" := by decide
  have hab2 : V1.kvKeyName "A_B" = "A_B" := by decide
  refine ⟨keyVaultLoop_map_ok, by decide, by decide, ?_, ?_, ?_⟩ <;>
    intro env v1 v2 <;>
    simp [V1.keyVaultLoop, setEnv, hab, hab2, getEnv, List.lookup]

/-- C7, counterexample: the empty string fails to parse as JSON, yet the
resolution of a setting with empty value does not return the value
verbatim — the setting is skipped entirely (no value resolved, and a
pre-existing namespace entry for the key is left in place instead of the
verbatim empty literal). -/
theorem claim_C7_counterexample :
    jsonParse "" = none
    ∧ V2.resolveSetting (fun _ _ => Except.error (StoreError.auth "denied")) ⟨"K", ""⟩
        = Except.ok none
    ∧ (Except.ok (none : Option String) : Except StoreError (Option String))
        ≠ Except.ok (some "")
    ∧ getEnv (V2.populateLoop (fun _ _ => Except.error (StoreError.auth "denied"))
        [⟨"K", ""⟩] [("K", "old")]).1 "K" ≠ some "" := by
  refine ⟨rfl, rfl, ?_, ?_⟩
  · intro h
    exact Option.noConfusion (Except.ok.inj h)
  · intro h
    exact String.noConfusion (Option.some.inj h) (fun hdata => List.noConfusion hdata)

/-- C7, amended: a setting whose *non-empty* value fails to parse as
JSON, or is otherwise not identified as a Key Vault reference, resolves
to its value verbatim and never raises; a setting with an empty value is
instead skipped entirely (no write and no error). -/
theorem claim_C7_literal_fallback :
    (∀ (secretStore : SecretStore) (s : ConfigurationSetting),
        s.value ≠ "" → isKeyVaultReference s = false →
        V2.resolveSetting secretStore s = Except.ok (some s.value))
    ∧
    (∀ (secretStore : SecretStore) (s : ConfigurationSetting),
        jsonParse s.value = none → s.value ≠ "" →
        V2.resolveSetting secretStore s = Except.ok (some s.value)) := by
  have base : ∀ (secretStore : SecretStore) (s : ConfigurationSetting),
      s.value ≠ "" → isKeyVaultReference s = false →
      V2.resolveSetting secretStore s = Except.ok (some s.value) := by
    intro secretStore s h1 h2
    simp [V2.resolveSetting, h1, h2]
  refine ⟨base, ?_⟩
  intro secretStore s hp h1
  refine base secretStore s h1 ?_
  simp [isKeyVaultReference, h1, hp]

/-- C7, witness: the malformed value `not json` resolves to itself
verbatim without error. -/
theorem claim_C7_witness :
    V2.resolveSetting (fun _ _ => Except.error (StoreError.auth "denied"))
        ⟨"K", "not json"⟩ = Except.ok (some "not json") :=
  claim_C7_literal_fallback.2 _ ⟨"K", "not json"⟩ rfl (by decide)

/-- C8: a setting that is identified as a Key Vault reference
(`isKeyVaultReference` holds) but whose parsed `uri` field is the empty
string makes resolution raise the explicit invalid-reference error
rather than fall back to the literal value. -/
theorem claim_C8_incomplete_reference_errors
    (secretStore : SecretStore) (s : ConfigurationSetting)
    (fields : List (String × Json))
    (hparse : jsonParse s.value = some (Json.obj fields))
    (huri : (Json.obj fields).getProp "uri" = some (Json.str "")) :
    isKeyVaultReference s = true
    ∧ V2.resolveSetting secretStore s
        = Except.error (StoreError.invalidKeyVaultReference s.key) := by
  have hne : s.value ≠ "" := by
    intro h
    rw [h, jsonParse_empty] at hparse
    exact Option.noConfusion hparse
  have href : isKeyVaultReference s = true := by
    simp [isKeyVaultReference, hne, hparse, Json.truthy, huri]
  have hget : getSecretFromKeyVault secretStore s
      = Except.error (StoreError.invalidKeyVaultReference s.key) := by
    simp [getSecretFromKeyVault, hne, hparse, huri]
  refine ⟨href, ?_⟩
  simp [V2.resolveSetting, hne, href, hget, Except.map]

/-- C8, witness: the error branch is reachable — the concrete value
`"uri":""` (wrapped in braces) is identified as a reference and makes
resolution raise the invalid-reference error. -/
theorem claim_C8_witness :
    isKeyVaultReference ⟨"K", "\x7b\"uri\":\"\"\x7d"⟩ = true
    ∧ V2.resolveSetting (fun _ _ => Except.error (StoreError.auth "denied"))
        ⟨"K", "\x7b\"uri\":\"\"\x7d"⟩
      = Except.error (StoreError.invalidKeyVaultReference "K") :=
  claim_C8_incomplete_reference_errors _ ⟨"K", "\x7b\"uri\":\"\"\x7d"⟩
    [("uri", Json.str "")] rfl rfl

/-- C9: the typed extraction step is total soft-validation — for any
environment in which `AZURE_COSMOS_CONNECTION_STRING` resolves empty it
still returns a complete `AppConfig` (both sub-structures populated from
the environment, the empty connection string carried through as `""`),
emits the warning naming `AZURE_COSMOS_CONNECTION_STRING`, and after a
successful production population `getConfig` returns `Except.ok` with
exactly this extraction — extraction itself never raises or aborts
startup. -/
theorem claim_C9_soft_validation
    (dbNameKey roleNameKey : String) (env : Env)
    (hempty : getEnvD env "AZURE_COSMOS_CONNECTION_STRING" = "") :
    (extractConfig dbNameKey roleNameKey env).1.database.connectionString = ""
    ∧ (extractConfig dbNameKey roleNameKey env).1.database.databaseName
        = getEnvD env dbNameKey
    ∧ (extractConfig dbNameKey roleNameKey env).1.observability.connectionString
        = getEnvD env "APPLICATIONINSIGHTS_CONNECTION_STRING"
    ∧ (extractConfig dbNameKey roleNameKey env).1.observability.roleName
        = getEnvD env roleNameKey
    ∧ databaseWarning ∈ (extractConfig dbNameKey roleNameKey env).2
    ∧ mentionsVar databaseWarning "AZURE_COSMOS_CONNECTION_STRING" = true
    ∧ (∀ (secretStore : SecretStore) (settings : List ConfigurationSetting)
          (d : List (String × String)) (env2 : Env),
          V2.populateEnvironmentFromAppConfig secretStore settings env = (env2, none) →
          getEnv env "NODE_ENV" = some "production" →
          V2.getConfig secretStore settings d dbNameKey roleNameKey env
            = Except.ok (env2, extractConfig dbNameKey roleNameKey env2)) := by
  refine ⟨by simp [extractConfig, configGet, hempty], by simp [extractConfig, configGet],
    by simp [extractConfig, configGet], by simp [extractConfig, configGet], ?_, by decide, ?_⟩
  · simp [extractConfig, configGet, hempty]
  · intro secretStore settings d env2 hpop hprod
    simp only [V2.getConfig, hprod, if_true]
    rw [hpop]

/-- C9, witness: on the empty environment the extraction returns the
complete structure with an empty database connection string and the
warning that names `AZURE_COSMOS_CONNECTION_STRING`. -/
theorem claim_C9_witness :
    (extractConfig "AZURE_COSMOS_DATABASE_NAME" "ROLE_NAME" []).1.database.connectionString = ""
    ∧ databaseWarning ∈ (extractConfig "AZURE_COSMOS_DATABASE_NAME" "ROLE_NAME" []).2
    ∧ mentionsVar databaseWarning "AZURE_COSMOS_CONNECTION_STRING" = true :=
  ⟨(claim_C9_soft_validation "AZURE_COSMOS_DATABASE_NAME" "ROLE_NAME" [] rfl).1,
   (claim_C9_soft_validation "AZURE_COSMOS_DATABASE_NAME" "ROLE_NAME" [] rfl).2.2.2.2.1,
   (claim_C9_soft_validation "AZURE_COSMOS_DATABASE_NAME" "ROLE_NAME" [] rfl).2.2.2.2.2.1⟩

/-- C10: remote population is not atomic — when the enumeration or
retrieval fails at some entry, every entry processed before the failure
has already been written into the namespace and remains there while the
fatal error propagates, and the remaining entries are untouched.  Stated
for the Key Vault loop of `V1` (full characterization) and for the
reference-resolving App Configuration loop of `V2`. -/
theorem claim_C10_no_rollback :
    (∀ (processed : List (String × String)) (name : String) (e : StoreError)
        (rest : List (String × Except StoreError String)) (env : Env),
        V1.keyVaultLoop (processed.map (fun p => (p.1, Except.ok p.2))
            ++ (name, Except.error e) :: rest) env
          = ((processed.map (fun p => (V1.kvKeyName p.1, p.2))).reverse ++ env, some e))
    ∧
    (∀ (secretStore : SecretStore) (pre : List ConfigurationSetting)
        (s : ConfigurationSetting) (rest : List ConfigurationSetting)
        (env env2 : Env) (e : StoreError),
        V2.populateLoop secretStore pre env = (env2, none) →
        V2.resolveSetting secretStore s = Except.error e →
        V2.populateLoop secretStore (pre ++ s :: rest) env = (env2, some e)) := by
  constructor
  · intro processed name e rest env
    induction processed generalizing env with
    | nil => rfl
    | cons p ps ih => simp [V1.keyVaultLoop, ih, setEnv]
  · intro secretStore pre s rest env env2 e hpre hs
    rw [populateLoop_append secretStore pre (s :: rest) env, hpre]
    simp [V2.populateLoop, hs]

/-- C10, witness: the literal setting `A` is written, then the reference
setting `B` fails with an authentication error; the loop stops with the
error while `A`'s write remains in the namespace and the trailing
setting `C` is untouched. -/
theorem claim_C10_witness :
    V2.populateLoop (fun _ _ => Except.error (StoreError.auth "denied"))
        [⟨"A", "1"⟩, ⟨"B", "\x7b\"uri\":\"https://v.example/secrets/n\"\x7d"⟩, ⟨"C", "2"⟩] []
      = ([("A", "1")], some (StoreError.auth "denied")) :=
  claim_C10_no_rollback.2 (fun _ _ => Except.error (StoreError.auth "denied"))
    [⟨"A", "1"⟩] ⟨"B", "\x7b\"uri\":\"https://v.example/secrets/n\"\x7d"⟩ [⟨"C", "2"⟩]
    [] [("A", "1")] (StoreError.auth "denied") rfl rfl
